import Mathlib

/-!
Verification development for the combat engine of "The Saga of Eldoria"
(src/the_game.py). The Python classes and functions are shallowly embedded
as pure Lean functions: mutation becomes explicit state passing, the
`random` module becomes an explicit stream of pre-drawn values, and console
input becomes an explicit list of already-normalized command strings.

Numeric conventions (all exact for the values the game uses):
* HP, stats and damage are `Nat`; Python's `max(0, hp - d)` is `Nat`
  truncated subtraction, and `max(1, d - buff)` agrees with the Python
  expression because `Nat` subtraction already clamps at 0.
* Python `d // 2` on non-negative ints is `Nat` division.
* `int(magic * 1.5)` is modelled as `magic * 3 / 2`: for every int `m` up
  to 2^51, `m * 1.5` is an exact binary float and `int` truncates it to
  `floor(3m/2)`.
* The float comparisons `roll <= 5 + agility/10`, `roll <= agility/5` and
  `roll <= 20 + agility/10` (integer `roll`) are modelled as the exact
  integer comparisons `10*roll <= 50 + agility`, `5*roll <= agility` and
  `10*roll <= 200 + agility`. Rounding of the float right-hand side can
  only move it across an integer when it is an exact multiple of 1/10
  (resp. 1/5) with integral value, in which case the float is exact, so
  the integer comparison coincides with the Python one.
-/

/-- Kinds of item effect in the game. The Python `Item` stores the effect
as a function object; the four module-level effect functions are embedded
below as `use_health_potion`, `use_scroll_of_protection`, `use_elven_blade`
and `use_arcane_focus`, selected by this tag via `apply_effect`. -/
inductive ItemEffect where
  | healthPotionEffect
  | scrollOfProtectionEffect
  | elvenBladeEffect
  | arcaneFocusEffect
deriving DecidableEq, Repr

/-- Embedding of the Python `Item` class: name, description, and an
optional effect (Python stores `None` or a function; here the tag). -/
structure Item where
  name : String
  description : String
  effect : Option ItemEffect
deriving DecidableEq, Repr

/-- Embedding of the Python `Character` class (its `__init__` fields).
`inventory` is the dict `{item_name: Item_object}` as an association
list. -/
structure Character where
  name : String
  max_hp : Nat
  current_hp : Nat
  strength : Nat
  agility : Nat
  magic : Nat
  ability_name : String
  is_defending : Bool
  temp_defense_buff : Nat
  weapon_boost : Nat
  inventory : List (String × Item)
deriving DecidableEq, Repr

/-- `Character.take_damage`: applies the defending halving (floor at 1,
clears the flag), then the temporary-buff mitigation `max(1, d - buff)`
(clearing the buff when it was positive), then subtracts from
`current_hp` with a floor at 0. Returns the updated character together
with the damage value the Python method returns. -/
def take_damage (c : Character) (damage : Nat) : Character × Nat :=
  let damage1 := if c.is_defending then max 1 (damage / 2) else damage
  let c1 := if c.is_defending then { c with is_defending := false } else c
  let damage2 := max 1 (damage1 - c1.temp_defense_buff)
  let c2 := if 0 < c1.temp_defense_buff then { c1 with temp_defense_buff := 0 } else c1
  ({ c2 with current_hp := c2.current_hp - damage2 }, damage2)

/-- `Character.heal`: `current_hp = min(max_hp, current_hp + amount)`. -/
def heal (c : Character) (amount : Nat) : Character :=
  { c with current_hp := min c.max_hp (c.current_hp + amount) }

/-- `use_health_potion`: heals 40. -/
def use_health_potion (player : Character) : Character :=
  heal player 40

/-- `use_scroll_of_protection`: sets `temp_defense_buff = 15`. -/
def use_scroll_of_protection (player : Character) : Character :=
  { player with temp_defense_buff := 15 }

/-- `use_elven_blade`: if `weapon_boost` is falsy (0), sets
`weapon_boost = 5` and adds 5 to `strength`; otherwise does nothing. -/
def use_elven_blade (player : Character) : Character :=
  if player.weapon_boost = 0 then
    { player with weapon_boost := 5, strength := player.strength + 5 }
  else player

/-- The `ARCANE_FOCUS` lambda: if `weapon_boost` is falsy (0), adds 5 to
`magic` and sets `weapon_boost = 5`; otherwise does nothing. -/
def use_arcane_focus (player : Character) : Character :=
  if player.weapon_boost = 0 then
    { player with magic := player.magic + 5, weapon_boost := 5 }
  else player

/-- Dispatch from effect tag to the embedded effect function. -/
def apply_effect : ItemEffect → Character → Character
  | .healthPotionEffect, p => use_health_potion p
  | .scrollOfProtectionEffect, p => use_scroll_of_protection p
  | .elvenBladeEffect, p => use_elven_blade p
  | .arcaneFocusEffect, p => use_arcane_focus p

/-- `Item.use`: if the item has an effect it is executed and the method
returns True; otherwise the target is untouched and it returns False. -/
def Item.use (item : Item) (target : Character) : Character × Bool :=
  match item.effect with
  | some eff => (apply_effect eff target, true)
  | none => (target, false)

/-- The module-level `HEALTH_POTION` singleton. -/
def HEALTH_POTION : Item :=
  { name := "Health Potion", description := "Restores 40 HP.",
    effect := some .healthPotionEffect }

/-- The module-level `SCROLL_PROTECTION` singleton. -/
def SCROLL_PROTECTION : Item :=
  { name := "Scroll of Protection",
    description := "Grants +15 temporary defense for the next turn.",
    effect := some .scrollOfProtectionEffect }

/-- The module-level `ELVEN_BLADE` singleton. -/
def ELVEN_BLADE : Item :=
  { name := "Elven Blade",
    description := "A legendary weapon granting a permanent +5 Strength boost.",
    effect := some .elvenBladeEffect }

/-- The module-level `ARCANE_FOCUS` singleton. -/
def ARCANE_FOCUS : Item :=
  { name := "Arcane Focus",
    description := "An ancient artifact granting a permanent +5 Magic boost.",
    effect := some .arcaneFocusEffect }

/-- Explicit random stream: `nats` feeds successive `random.randint`
calls (each draw is clamped into the requested range, so in-range streams
reproduce the Python draws exactly; an exhausted stream yields the lower
bound), `bools` feeds the `random.random() < 0.70` test in the enemy AI
(`true` = standard attack branch). -/
structure Rng where
  nats : List Nat
  bools : List Bool
deriving DecidableEq, Repr

/-- Draw one `randint(lo, hi)` value from the stream. -/
def nextNat (rng : Rng) (lo hi : Nat) : Nat × Rng :=
  match rng.nats with
  | [] => (lo, rng)
  | x :: xs => (min hi (max lo x), { rng with nats := xs })

/-- Draw one `random.random() < 0.70` outcome from the stream. -/
def nextBool (rng : Rng) : Bool × Rng :=
  match rng.bools with
  | [] => (false, rng)
  | b :: bs => (b, { rng with bools := bs })

/-- The `Combat` session object: one player and one enemy. -/
structure Combat where
  player : Character
  enemy : Character
deriving DecidableEq, Repr

/-- `Combat._calculate_damage`: d6 times the power stat, agility-based
crit doubling, agility-based dodge (dodge returns 0 without calling
`take_damage`), otherwise `take_damage` on the defender. Returns the
updated defender, the damage dealt, and the advanced random stream.
The unused `is_magic` flag of the Python method only affects printing
and is omitted. -/
def calculate_damage (attacker defender : Character) (stat_multiplier : Nat)
    (rng : Rng) : Character × Nat × Rng :=
  let r1 := nextNat rng 1 6
  let base1 := r1.1 * stat_multiplier
  let r2 := nextNat r1.2 1 100
  let base2 := if 10 * r2.1 ≤ 50 + attacker.agility then base1 * 2 else base1
  let r3 := nextNat r2.2 1 100
  if 5 * r3.1 ≤ defender.agility then
    (defender, 0, r3.2)
  else
    let td := take_damage defender base2
    (td.1, td.2, r3.2)

/-- `Combat._player_attack`: standard attack with
`effective_strength = strength + weapon_boost`. -/
def player_attack (s : Combat) (rng : Rng) : Combat × Rng :=
  let effective_strength := s.player.strength + s.player.weapon_boost
  let r := calculate_damage s.player s.enemy effective_strength rng
  ({ s with enemy := r.1 }, r.2.2)

/-- `Combat._player_defend`: sets the player's `is_defending` flag. -/
def player_defend (s : Combat) : Combat :=
  { s with player := { s.player with is_defending := true } }

/-- `Combat._player_magic`: clears the player's `temp_defense_buff`, then
dispatches on `ability_name` (Shield Bash / Arcane Bolt / Sneak Attack;
any other name falls through doing nothing more). -/
def player_magic (s : Combat) (rng : Rng) : Combat × Rng :=
  let player0 := { s.player with temp_defense_buff := 0 }
  if player0.ability_name = "Shield Bash" then
    let player1 := { player0 with is_defending := true }
    let r1 := nextNat rng 1 6
    let counter_damage := r1.1 * (player1.strength + player1.weapon_boost) / 2
    let td := take_damage s.enemy (max 1 counter_damage)
    ({ player := player1, enemy := td.1 }, r1.2)
  else if player0.ability_name = "Arcane Bolt" then
    let r1 := nextNat rng 1 100
    if r1.1 ≤ 10 then
      ({ s with player := player0 }, r1.2)
    else
      let effective_magic := player0.magic * 3 / 2
      let r := calculate_damage player0 s.enemy effective_magic r1.2
      ({ player := player0, enemy := r.1 }, r.2.2)
  else if player0.ability_name = "Sneak Attack" then
    let r1 := nextNat rng 1 6
    let base1 := r1.1 * (player0.strength + player0.weapon_boost)
    let r2 := nextNat r1.2 1 100
    let base2 := if 10 * r2.1 ≤ 200 + player0.agility then base1 * 2 else base1
    let td := take_damage s.enemy base2
    ({ player := player0, enemy := td.1 }, r2.2)
  else
    ({ s with player := player0 }, rng)

/-- Inner loop of `Combat._player_use_item`: consumes one input per
iteration ("Cancel" returns False; an unknown name, an already-equipped
permanent item, or an effect-less item re-prompts; a successful use
removes the item from inventory unless it is one of the two permanent
items and returns True). An exhausted input list behaves like a
cancellation, since the Python loop would block on `input()` there. -/
def player_use_item_go : Character → List String → Character × Bool × List String
  | player, [] => (player, false, [])
  | player, item_name :: rest =>
    if item_name = "Cancel" then (player, false, rest)
    else
      match player.inventory.find? (fun kv => kv.1 == item_name) with
      | some kv =>
        if (item_name = "Elven Blade" ∨ item_name = "Arcane Focus")
            ∧ 0 < player.weapon_boost then
          player_use_item_go player rest
        else
          let res := kv.2.use player
          if res.2 then
            let player1 :=
              if item_name = "Elven Blade" ∨ item_name = "Arcane Focus" then res.1
              else { res.1 with
                     inventory := res.1.inventory.filter (fun kv2 => kv2.1 != item_name) }
            (player1, true, rest)
          else player_use_item_go player rest
      | none => player_use_item_go player rest

/-- `Combat._player_use_item`: with an empty inventory it returns
immediately without spending the turn; otherwise it runs the input
loop. Returns the updated player, whether the turn was spent, and the
remaining inputs. -/
def player_use_item (player : Character) (inputs : List String) :
    Character × Bool × List String :=
  if player.inventory.isEmpty then (player, false, inputs)
  else player_use_item_go player inputs

/-- `Combat._enemy_special_move`: dispatch on the enemy's name
(Minor Bandit / Bandit King / Arch-Lich, Final Boss / default). -/
def enemy_special_move (s : Combat) (rng : Rng) : Combat × Rng :=
  if s.enemy.name = "Minor Bandit" then
    let r1 := nextNat rng 1 4
    let damage := r1.1 * s.enemy.strength
    let is_defending_temp := s.player.is_defending
    let td := take_damage { s.player with is_defending := false } damage
    let player1 := { td.1 with is_defending := is_defending_temp }
    ({ s with player := player1 }, r1.2)
  else if s.enemy.name = "Bandit King" then
    let player0 := { s.player with temp_defense_buff := 5 }
    let r := calculate_damage s.enemy player0 s.enemy.strength rng
    ({ s with player := r.1 }, r.2.2)
  else if s.enemy.name = "Arch-Lich, Final Boss" then
    let r1 := nextNat rng 4 10
    let damage := r1.1 * s.enemy.magic
    let td := take_damage s.player damage
    let heal_amount := td.2 / 2
    let enemy1 := { s.enemy with
                    current_hp := min s.enemy.max_hp (s.enemy.current_hp + heal_amount) }
    ({ player := td.1, enemy := enemy1 }, r1.2)
  else
    let r := calculate_damage s.enemy s.player s.enemy.strength rng
    ({ s with player := r.1 }, r.2.2)

/-- `Combat._enemy_turn`: first sets the player's `is_defending` to
false, then with probability 0.70 (the boolean draw) performs a standard
attack, otherwise the enemy-specific special move. -/
def enemy_turn (s : Combat) (rng : Rng) : Combat × Rng :=
  let s1 : Combat := { s with player := { s.player with is_defending := false } }
  let rb := nextBool rng
  if rb.1 then
    let r := calculate_damage s1.enemy s1.player s1.enemy.strength rb.2
    ({ s1 with player := r.1 }, r.2.2)
  else
    enemy_special_move s1 rb.2

/-- Inner player-action loop of `Combat.start_combat` (`while not
action_spent`): consumes commands until one spends the turn. "stats" and
unrecognized commands re-prompt; "item" spends the turn only when an item
was successfully used. `none` models blocking forever on exhausted input
(or fuel). -/
def player_turn_loop : Nat → Combat → Rng → List String →
    Option (Combat × Rng × List String)
  | 0, _, _, _ => none
  | _ + 1, _, _, [] => none
  | fuel + 1, s, rng, cmd :: rest =>
    if cmd = "attack" then
      let r := player_attack s rng
      some (r.1, r.2, rest)
    else if cmd = "defend" then
      some (player_defend s, rng, rest)
    else if cmd = "magic" then
      let r := player_magic s rng
      some (r.1, r.2, rest)
    else if cmd = "item" then
      let r := player_use_item s.player rest
      if r.2.1 then some ({ s with player := r.1 }, rng, r.2.2)
      else player_turn_loop fuel { s with player := r.1 } rng r.2.2
    else if cmd = "stats" then
      player_turn_loop fuel s rng rest
    else
      player_turn_loop fuel s rng rest

/-- `Combat.start_combat`: the main `while player>0 and enemy>0` loop.
After the player's turn it returns defeat if player HP ≤ 0, victory if
enemy HP ≤ 0, and otherwise runs the enemy turn and loops; when the loop
condition fails it returns `player.current_hp > 0`. The result is paired
with the final combat state (the Python method mutates the shared
objects; the caller reads the final HP from them). `none` models
nontermination within the given fuel or blocking on exhausted input. -/
def start_combat : Nat → Combat → Rng → List String → Option (Bool × Combat)
  | 0, _, _, _ => none
  | fuel + 1, s, rng, inputs =>
    if 0 < s.player.current_hp ∧ 0 < s.enemy.current_hp then
      (player_turn_loop (inputs.length + 1) s rng inputs).bind (fun t =>
        if t.1.player.current_hp ≤ 0 then some (false, t.1)
        else if t.1.enemy.current_hp ≤ 0 then some (true, t.1)
        else
          let r := enemy_turn t.1 t.2.1
          start_combat fuel r.1 r.2 t.2.2)
    else
      some (decide (0 < s.player.current_hp), s)

/-! ### Helper lemmas about the damage pipeline -/

/-- The damage value `take_damage` returns, in closed form. -/
theorem take_damage_snd (c : Character) (d : Nat) :
    (take_damage c d).2 =
      max 1 ((if c.is_defending then max 1 (d / 2) else d) - c.temp_defense_buff) := by
  by_cases h1 : c.is_defending <;> by_cases h2 : 0 < c.temp_defense_buff <;>
    simp [take_damage, h1, h2]

/-- `take_damage` subtracts exactly its returned value from `current_hp`
(with `Nat` truncation modelling the floor at 0). -/
theorem take_damage_current_hp (c : Character) (d : Nat) :
    (take_damage c d).1.current_hp = c.current_hp - (take_damage c d).2 := by
  by_cases h1 : c.is_defending <;> by_cases h2 : 0 < c.temp_defense_buff <;>
    simp [take_damage, h1, h2]

/-- `take_damage` never changes `max_hp`. -/
theorem take_damage_max_hp (c : Character) (d : Nat) :
    (take_damage c d).1.max_hp = c.max_hp := by
  by_cases h1 : c.is_defending <;> by_cases h2 : 0 < c.temp_defense_buff <;>
    simp [take_damage, h1, h2]

/-- The damage `take_damage` reports is always at least 1. -/
theorem take_damage_one_le (c : Character) (d : Nat) :
    1 ≤ (take_damage c d).2 := by
  rw [take_damage_snd]
  exact Nat.le_max_left _ _

/-- `take_damage` never increases `current_hp`. -/
theorem take_damage_hp_le (c : Character) (d : Nat) :
    (take_damage c d).1.current_hp ≤ c.current_hp := by
  rw [take_damage_current_hp]
  exact Nat.sub_le _ _

/-- `calculate_damage` never changes the defender's `max_hp`. -/
theorem calculate_damage_max_hp (a b : Character) (m : Nat) (rng : Rng) :
    (calculate_damage a b m rng).1.max_hp = b.max_hp := by
  simp only [calculate_damage]
  split
  · rfl
  · exact take_damage_max_hp _ _

/-- `calculate_damage` never increases the defender's `current_hp`. -/
theorem calculate_damage_hp_le (a b : Character) (m : Nat) (rng : Rng) :
    (calculate_damage a b m rng).1.current_hp ≤ b.current_hp := by
  simp only [calculate_damage]
  split
  · exact Nat.le_refl _
  · exact take_damage_hp_le _ _

/-- A zero damage report from `calculate_damage` only happens on the
dodge branch, which returns the defender untouched. -/
theorem calculate_damage_zero (a b : Character) (m : Nat) (rng : Rng)
    (h : (calculate_damage a b m rng).2.1 = 0) :
    (calculate_damage a b m rng).1 = b := by
  simp only [calculate_damage] at h ⊢
  split at h
  · rename_i hc
    rw [if_pos hc]
  · rename_i hc
    exfalso
    simp only at h
    have h1 := take_damage_one_le b
      (if 10 * (nextNat (nextNat rng 1 6).2 1 100).1 ≤ 50 + a.agility then
        (nextNat rng 1 6).1 * m * 2 else (nextNat rng 1 6).1 * m)
    omega

/-! ### Shared concrete combatants for witnesses and counterexamples -/

/-- A concrete warrior-like player state. -/
def heroC : Character :=
  { name := "Hero", max_hp := 120, current_hp := 120, strength := 14, agility := 8,
    magic := 5, ability_name := "Shield Bash", is_defending := false,
    temp_defense_buff := 0, weapon_boost := 0, inventory := [] }

/-- A concrete low-HP combatant used to exercise the HP floor. -/
def c2C : Character :=
  { name := "Dummy", max_hp := 60, current_hp := 5, strength := 8, agility := 0,
    magic := 5, ability_name := "Quick Strike", is_defending := false,
    temp_defense_buff := 0, weapon_boost := 0, inventory := [] }

/-- Claim C2, counterexample: a combatant at 5 HP hit for 10 post-mitigation
damage drops to 0 HP (a delta of 5), yet `take_damage` returns 10, so the
return value is not the amount actually subtracted from `current_hp`. -/
theorem C2_counterexample :
    (take_damage c2C 10).2 = 10 ∧
    c2C.current_hp - (take_damage c2C 10).1.current_hp = 5 ∧ (10 : Nat) ≠ 5 := by
  decide

/-- Claim C2, amended: `take_damage` returns the post-mitigation damage;
the amount actually subtracted from `current_hp` is the minimum of that
return value and the HP before the call, so the two coincide exactly when
the post-mitigation damage does not exceed the remaining HP. -/
theorem C2_take_damage_return_vs_hp_delta (c : Character) (d : Nat) :
    c.current_hp - (take_damage c d).1.current_hp =
      min (take_damage c d).2 c.current_hp ∧
    ((take_damage c d).2 ≤ c.current_hp →
      c.current_hp - (take_damage c d).1.current_hp = (take_damage c d).2) := by
  rw [take_damage_current_hp]
  omega

/-- Witness for the amended C2 at a concrete input where the damage does
not exceed the remaining HP. -/
theorem C2_witness :
    c2C.current_hp - (take_damage c2C 4).1.current_hp = (take_damage c2C 4).2 :=
  (C2_take_damage_return_vs_hp_delta c2C 4).2 (by decide)

/-- A concrete combatant that has not yet received a weapon boost. -/
def c4C : Character := heroC

/-- Claim C4, counterexample: on a combatant with strength 14 and
`weapon_boost` 0, the Elven Blade raises the effective strength
(`strength + weapon_boost`, as used by the standard player attack) from
14 to 24 — an increase of 10, not 5, because the +5 written into the base
stat and the `weapon_boost = 5` marker are both added by the accessor. -/
theorem C4_counterexample :
    (use_elven_blade c4C).strength + (use_elven_blade c4C).weapon_boost = 24 ∧
    c4C.strength + c4C.weapon_boost = 14 ∧ ¬ (24 : Nat) = 14 + 5 := by
  decide

/-- Claim C4, amended: on a combatant with `weapon_boost = 0` the Elven
Blade increases the effective strength by exactly 10 (5 added to the base
stat plus the `weapon_boost` value 5 counted again by the accessor). -/
theorem C4_elven_blade_effective_strength (c : Character) (h : c.weapon_boost = 0) :
    (use_elven_blade c).strength + (use_elven_blade c).weapon_boost =
      c.strength + c.weapon_boost + 10 := by
  simp [use_elven_blade, h]

/-- Witness for the amended C4 at a concrete boost-free combatant. -/
theorem C4_witness :
    (use_elven_blade c4C).strength + (use_elven_blade c4C).weapon_boost =
      c4C.strength + c4C.weapon_boost + 10 :=
  C4_elven_blade_effective_strength c4C (by decide)

/-- A concrete combatant that already carries the Elven Blade boost. -/
def c5C : Character := use_elven_blade heroC

/-- Claim C5, counterexample: a second `use` of the Elven Blade on a
combatant whose `weapon_boost` is already 5 leaves the combatant entirely
unchanged but still returns `true`, not a failure value — `Item.use`
reports only whether the item has an effect function at all. -/
theorem C5_counterexample :
    (ELVEN_BLADE.use c5C).2 = true ∧ (ELVEN_BLADE.use c5C).1 = c5C := by
  decide

/-- Claim C5, amended: a second `use` of the Elven Blade or Arcane Focus
on a combatant with nonzero `weapon_boost` leaves strength, magic and
`weapon_boost` unchanged (the boost applies only once), but `use` still
returns `true`; reuse is instead blocked by the turn engine's separate
`weapon_boost` guard before `use` is reached. -/
theorem C5_permanent_items_second_use (c : Character) (h : c.weapon_boost ≠ 0) :
    ELVEN_BLADE.use c = (c, true) ∧ ARCANE_FOCUS.use c = (c, true) := by
  simp [ELVEN_BLADE, ARCANE_FOCUS, Item.use, apply_effect,
    use_elven_blade, use_arcane_focus, h]

/-- Witness for the amended C5 on a combatant that already has a boost. -/
theorem C5_witness :
    ELVEN_BLADE.use c5C = (c5C, true) ∧ ARCANE_FOCUS.use c5C = (c5C, true) :=
  C5_permanent_items_second_use c5C (by decide)

/-- Claim C10: any damage amount (including 0) that reaches `take_damage`
costs a living combatant at least 1 HP — the mitigation pipeline floors
the final damage at 1 unconditionally — and a zero-damage outcome of the
damage resolution can only be a dodge, which leaves the defender
untouched (`take_damage` is never invoked on that branch). -/
theorem C10_minimum_one_damage (c : Character) (d : Nat) (a b : Character)
    (m : Nat) (rng : Rng) (h : 0 < c.current_hp) :
    1 ≤ (take_damage c d).2 ∧
    (take_damage c d).1.current_hp < c.current_hp ∧
    ((calculate_damage a b m rng).2.1 = 0 → (calculate_damage a b m rng).1 = b) := by
  refine ⟨take_damage_one_le c d, ?_, fun hz => calculate_damage_zero a b m rng hz⟩
  rw [take_damage_current_hp]
  have h1 := take_damage_one_le c d
  omega

/-- Witness for C10: a living combatant hit with a nominal 0 damage still
loses HP, and a concrete dodged resolution leaves the defender intact. -/
theorem C10_witness :
    1 ≤ (take_damage c2C 0).2 ∧
    (take_damage c2C 0).1.current_hp < c2C.current_hp ∧
    ((calculate_damage heroC c2C 3 ⟨[6, 100, 100], []⟩).2.1 = 0 →
      (calculate_damage heroC c2C 3 ⟨[6, 100, 100], []⟩).1 = c2C) :=
  C10_minimum_one_damage c2C 0 heroC c2C 3 ⟨[6, 100, 100], []⟩ (by decide)

/-- The combat state for the C1 scenario: the player has just declared
Defend (`is_defending = true`); the enemy is a plain enemy about to take
its turn. -/
def c1S : Combat :=
  { player := { heroC with is_defending := true },
    enemy := { name := "Goblin", max_hp := 60, current_hp := 60, strength := 8,
               agility := 0, magic := 5, ability_name := "Claw",
               is_defending := false, temp_defense_buff := 0, weapon_boost := 0,
               inventory := [] } }

/-- Random stream for the C1 scenario: the enemy rolls the standard
attack (bool draw `true`), a d6 of 6, and crit/dodge rolls of 100 (no
crit, no dodge). -/
def c1Rng : Rng := ⟨[6, 100, 100], [true]⟩

/-- Claim C1, code evaluation at the failing input: `enemy_turn` clears
the player's `is_defending` flag before the enemy attacks, so the
defending branch of `take_damage` never executes on the enemy's following
attack. With the player defending at 120 HP and an enemy attack of
6 x 8 = 48, the player ends at 72 HP (full damage) instead of the
96 HP (`48 / 2 = 24` damage) the claim's guaranteed block would give,
and this outcome is independent of the declared defense flag. -/
theorem C1_defend_cleared_before_enemy_attack :
    (enemy_turn c1S c1Rng).1.player.current_hp = 72 ∧
    (enemy_turn c1S c1Rng).1.player.is_defending = false ∧
    (72 : Nat) = 120 - 48 ∧ (72 : Nat) ≠ 120 - max 1 (48 / 2) ∧
    (∀ b : Bool,
      (enemy_turn { c1S with player := { c1S.player with is_defending := b } }
        c1Rng).1.player.current_hp = 72) := by
  refine ⟨by decide, by decide, by decide, by decide, ?_⟩
  intro b
  cases b <;> decide

/-- The combat state for the C3 counterexample: a Mage who has used the
Arcane Focus (magic 15 + 5 = 20, `weapon_boost = 5`) against a bulky
enemy. -/
def c3S : Combat :=
  { player := { name := "Mage", max_hp := 90, current_hp := 90, strength := 6,
                agility := 9, magic := 20, ability_name := "Arcane Bolt",
                is_defending := false, temp_defense_buff := 0, weapon_boost := 5,
                inventory := [] },
    enemy := { name := "Arch-Lich, Final Boss", max_hp := 500, current_hp := 500,
               strength := 10, agility := 0, magic := 18,
               ability_name := "Arcane Drain", is_defending := false,
               temp_defense_buff := 0, weapon_boost := 0, inventory := [] } }

/-- Random stream for the C3 counterexample: miss roll 100 (no miss),
d6 = 6, crit roll 100 (no crit), dodge roll 100 (no dodge). -/
def c3Rng : Rng := ⟨[100, 6, 100, 100], []⟩

/-- Claim C3, counterexample: for a combatant with magic 20 and
`weapon_boost` 5, a non-missing Arcane Bolt uses
`powerStat = floor(20 * 1.5) = 30` (base magic only), dealing 6 x 30 = 180
damage, not the `floor((20 + 5) * 1.5) = 37` power stat (6 x 37 = 222
damage) the claim's `effectiveMagic = magic + weaponBoost` would give. -/
theorem C3_counterexample :
    (player_magic c3S c3Rng).1.enemy.current_hp = 500 - 6 * (20 * 3 / 2) ∧
    500 - 6 * (20 * 3 / 2) ≠ 500 - 6 * ((20 + 5) * 3 / 2) := by
  decide

/-- Claim C3, amended: when Arcane Bolt does not miss (miss roll > 10),
it invokes the standard damage resolution with
`powerStat = floor(magic * 1.5)` computed from the base magic stat alone —
`weapon_boost` is not added (the Arcane Focus boost is included only
because that item increments the base magic stat itself). -/
theorem C3_arcane_bolt_power_stat (s : Combat) (m : Nat) (restN : List Nat)
    (bs : List Bool) (hab : s.player.ability_name = "Arcane Bolt")
    (hmiss : ¬ min 100 (max 1 m) ≤ 10) :
    player_magic s ⟨m :: restN, bs⟩ =
      ({ player := { s.player with temp_defense_buff := 0 },
         enemy := (calculate_damage { s.player with temp_defense_buff := 0 }
           s.enemy (s.player.magic * 3 / 2) ⟨restN, bs⟩).1 },
       (calculate_damage { s.player with temp_defense_buff := 0 } s.enemy
         (s.player.magic * 3 / 2) ⟨restN, bs⟩).2.2) := by
  simp only [player_magic, nextNat, hab]
  rw [if_neg (show ¬ ("Arcane Bolt" : String) = "Shield Bash" by decide)]
  rw [if_pos trivial]
  rw [if_neg hmiss]

/-- Witness for the amended C3 at the concrete Mage state. -/
theorem C3_witness :
    player_magic c3S ⟨100 :: [6, 100, 100], []⟩ =
      ({ player := { c3S.player with temp_defense_buff := 0 },
         enemy := (calculate_damage { c3S.player with temp_defense_buff := 0 }
           c3S.enemy (c3S.player.magic * 3 / 2) ⟨[6, 100, 100], []⟩).1 },
       (calculate_damage { c3S.player with temp_defense_buff := 0 } c3S.enemy
         (c3S.player.magic * 3 / 2) ⟨[6, 100, 100], []⟩).2.2) :=
  C3_arcane_bolt_power_stat c3S 100 [6, 100, 100] [] (by decide) (by decide)

/-- The combat state for the C9 witness: the Arch-Lich at 150/200 HP
facing a player at 100 HP. -/
def c9S : Combat :=
  { player := { heroC with current_hp := 100 },
    enemy := { name := "Arch-Lich, Final Boss", max_hp := 200, current_hp := 150,
               strength := 10, agility := 15, magic := 18,
               ability_name := "Arcane Drain", is_defending := false,
               temp_defense_buff := 0, weapon_boost := 0, inventory := [] } }

/-- Claim C9: the Arch-Lich's Arcane Drain draws one roll in [4, 10],
applies `roll * magic` damage directly via `take_damage` (no crit or
dodge draw is consumed), and then heals itself for exactly half the
damage `take_damage` reported (floor division), capped at its own
`max_hp`. -/
theorem C9_arcane_drain (s : Combat) (r : Nat) (restN : List Nat)
    (bs : List Bool) (hname : s.enemy.name = "Arch-Lich, Final Boss") :
    enemy_special_move s ⟨r :: restN, bs⟩ =
      ({ player := (take_damage s.player (min 10 (max 4 r) * s.enemy.magic)).1,
         enemy := { s.enemy with
           current_hp := min s.enemy.max_hp (s.enemy.current_hp +
             (take_damage s.player (min 10 (max 4 r) * s.enemy.magic)).2 / 2) } },
       ⟨restN, bs⟩) := by
  have h1 : ¬ s.enemy.name = "Minor Bandit" := by rw [hname]; decide
  have h2 : ¬ s.enemy.name = "Bandit King" := by rw [hname]; decide
  simp only [enemy_special_move]
  rw [if_neg h1, if_neg h2, if_pos hname]
  simp only [nextNat]

/-- Witness for C9: a drain roll of 7 deals 7 x 18 = 126 damage, the
player drops from 100 HP to 0 while `take_damage` reports 126, and the
Arch-Lich heals 63, capping at its 200 max HP. -/
theorem C9_witness :
    enemy_special_move c9S ⟨[7], []⟩ =
      ({ player := (take_damage c9S.player (min 10 (max 4 7) * c9S.enemy.magic)).1,
         enemy := { c9S.enemy with
           current_hp := min c9S.enemy.max_hp (c9S.enemy.current_hp +
             (take_damage c9S.player (min 10 (max 4 7) * c9S.enemy.magic)).2 / 2) } },
       ⟨[], []⟩) :=
  C9_arcane_drain c9S 7 [] [] (by decide)

/-- If a combatant satisfies the HP invariant, it still does after
`take_damage`. -/
theorem hp_le_of_take_damage (c : Character) (d : Nat)
    (h : c.current_hp ≤ c.max_hp) :
    (take_damage c d).1.current_hp ≤ (take_damage c d).1.max_hp := by
  rw [take_damage_max_hp]
  exact le_trans (take_damage_hp_le c d) h

/-- If the defender satisfies the HP invariant, it still does after
`calculate_damage`. -/
theorem hp_le_of_calculate_damage (a b : Character) (m : Nat) (rng : Rng)
    (h : b.current_hp ≤ b.max_hp) :
    (calculate_damage a b m rng).1.current_hp ≤
      (calculate_damage a b m rng).1.max_hp := by
  rw [calculate_damage_max_hp]
  exact le_trans (calculate_damage_hp_le a b m rng) h

/-- Claim C7: `0 ≤ current_hp ≤ max_hp` is preserved by every HP-mutating
operation — `take_damage`, `heal`, and every enemy special move including
the Arch-Lich's self-heal (the lower bound 0 is automatic in this model
since HP is a natural number, matching Python's `max(0, ...)` floor). -/
theorem C7_hp_invariant (c : Character) (damage amount : Nat) (s : Combat)
    (rng : Rng) (hc : c.current_hp ≤ c.max_hp)
    (hp : s.player.current_hp ≤ s.player.max_hp)
    (he : s.enemy.current_hp ≤ s.enemy.max_hp) :
    (take_damage c damage).1.current_hp ≤ (take_damage c damage).1.max_hp ∧
    (heal c amount).current_hp ≤ (heal c amount).max_hp ∧
    (enemy_special_move s rng).1.player.current_hp ≤
      (enemy_special_move s rng).1.player.max_hp ∧
    (enemy_special_move s rng).1.enemy.current_hp ≤
      (enemy_special_move s rng).1.enemy.max_hp := by
  refine ⟨hp_le_of_take_damage c damage hc, ?_, ?_, ?_⟩
  · simp [heal]
  · simp only [enemy_special_move]
    split
    · simpa using hp_le_of_take_damage { s.player with is_defending := false }
        ((nextNat rng 1 4).1 * s.enemy.strength) (by simpa using hp)
    · split
      · simpa using hp_le_of_calculate_damage s.enemy
          { s.player with temp_defense_buff := 5 } s.enemy.strength rng
          (by simpa using hp)
      · split
        · simpa using hp_le_of_take_damage s.player
            ((nextNat rng 4 10).1 * s.enemy.magic) hp
        · simpa using hp_le_of_calculate_damage s.enemy s.player
            s.enemy.strength rng hp
  · simp only [enemy_special_move]
    split
    · simpa using he
    · split
      · simpa using he
      · split
        · simp
        · simpa using he

/-- A concrete state for the C7 witness. -/
def c7S : Combat :=
  { player := heroC,
    enemy := { name := "Bandit King", max_hp := 150, current_hp := 150,
               strength := 12, agility := 9, magic := 7,
               ability_name := "Kings Roar", is_defending := false,
               temp_defense_buff := 0, weapon_boost := 0, inventory := [] } }

/-- Witness for C7 at concrete combatants and a concrete random stream. -/
theorem C7_witness :
    (take_damage c2C 3).1.current_hp ≤ (take_damage c2C 3).1.max_hp ∧
    (heal c2C 70).current_hp ≤ (heal c2C 70).max_hp ∧
    (enemy_special_move c7S ⟨[4, 90, 90], []⟩).1.player.current_hp ≤
      (enemy_special_move c7S ⟨[4, 90, 90], []⟩).1.player.max_hp ∧
    (enemy_special_move c7S ⟨[4, 90, 90], []⟩).1.enemy.current_hp ≤
      (enemy_special_move c7S ⟨[4, 90, 90], []⟩).1.enemy.max_hp :=
  C7_hp_invariant c2C 3 70 c7S ⟨[4, 90, 90], []⟩ (by decide) (by decide) (by decide)

/-- Claim C8: King's Roar stores 5 in the player's `temp_defense_buff`
and then attacks with `powerStat = enemy strength` in the same turn;
whenever that follow-up attack reaches `take_damage` (no dodge), the 5 is
consumed as flat mitigation of that very attack and the buff ends at 0.
Moreover the stored value never enters the player's outgoing damage:
the enemy state produced by the player's attack and ability actions is
invariant under the player's `temp_defense_buff`. -/
theorem C8_kings_roar_buff (s : Combat) (d6 cr dr : Nat) (t : Combat)
    (rng2 : Rng) (n : Nat) (hname : s.enemy.name = "Bandit King")
    (hdodge : ¬ 5 * min 100 (max 1 dr) ≤ s.player.agility) :
    (enemy_turn s ⟨[d6, cr, dr], [false]⟩).1.player.temp_defense_buff = 0 ∧
    (enemy_turn s ⟨[d6, cr, dr], [false]⟩).1.player.current_hp =
      s.player.current_hp -
        max 1 ((if 10 * min 100 (max 1 cr) ≤ 50 + s.enemy.agility
                then min 6 (max 1 d6) * s.enemy.strength * 2
                else min 6 (max 1 d6) * s.enemy.strength) - 5) ∧
    (player_attack { t with player := { t.player with temp_defense_buff := n } }
        rng2).1.enemy = (player_attack t rng2).1.enemy ∧
    (player_magic { t with player := { t.player with temp_defense_buff := n } }
        rng2).1.enemy = (player_magic t rng2).1.enemy := by
  refine ⟨?_, ?_, rfl, rfl⟩
  · simp [enemy_turn, nextBool, enemy_special_move, nextNat, calculate_damage,
      take_damage, hname, hdodge]
  · simp [enemy_turn, nextBool, enemy_special_move, nextNat, calculate_damage,
      take_damage, hname, hdodge]

/-- The combat state for the C8 witness: a Bandit King about to take its
special turn against the hero. -/
def c8S : Combat :=
  { player := heroC,
    enemy := { name := "Bandit King", max_hp := 150, current_hp := 150,
               strength := 12, agility := 9, magic := 7,
               ability_name := "Kings Roar", is_defending := false,
               temp_defense_buff := 0, weapon_boost := 0, inventory := [] } }

/-- Witness for C8 at a concrete roar turn (d6 = 6, no crit, no dodge)
and a concrete player action state. -/
theorem C8_witness :
    (enemy_turn c8S ⟨[6, 100, 100], [false]⟩).1.player.temp_defense_buff = 0 ∧
    (enemy_turn c8S ⟨[6, 100, 100], [false]⟩).1.player.current_hp =
      c8S.player.current_hp -
        max 1 ((if 10 * min 100 (max 1 100) ≤ 50 + c8S.enemy.agility
                then min 6 (max 1 6) * c8S.enemy.strength * 2
                else min 6 (max 1 6) * c8S.enemy.strength) - 5) ∧
    (player_attack { c9S with
        player := { c9S.player with temp_defense_buff := 7 } }
      ⟨[5, 50, 50], []⟩).1.enemy =
      (player_attack c9S ⟨[5, 50, 50], []⟩).1.enemy ∧
    (player_magic { c9S with
        player := { c9S.player with temp_defense_buff := 7 } }
      ⟨[5, 50, 50], []⟩).1.enemy =
      (player_magic c9S ⟨[5, 50, 50], []⟩).1.enemy :=
  C8_kings_roar_buff c8S 6 100 100 c9S ⟨[5, 50, 50], []⟩ 7 (by decide) (by decide)

/-- Claim C6: whenever `start_combat` terminates with a boolean result,
that result is `true` exactly when the enemy ended at 0 HP with the
player still above 0, and `false` exactly when the player ended at 0 HP. -/
theorem C6_start_combat_outcome (fuel : Nat) (s : Combat) (rng : Rng)
    (inputs : List String) (b : Bool) (s1 : Combat)
    (h : start_combat fuel s rng inputs = some (b, s1)) :
    (b = true ↔ (s1.enemy.current_hp = 0 ∧ 0 < s1.player.current_hp)) ∧
    (b = false ↔ s1.player.current_hp = 0) := by
  induction fuel generalizing s rng inputs with
  | zero => simp [start_combat] at h
  | succ n ih =>
    rw [start_combat] at h
    split at h
    · rename_i hcond
      rw [Option.bind_eq_some] at h
      obtain ⟨t, ht, h⟩ := h
      split at h
      · rename_i h1
        simp only [Option.some.injEq, Prod.mk.injEq] at h
        obtain ⟨hb, hs⟩ := h
        subst hb hs
        constructor <;> simp <;> omega
      · split at h
        · rename_i h1 h2
          simp only [Option.some.injEq, Prod.mk.injEq] at h
          obtain ⟨hb, hs⟩ := h
          subst hb hs
          constructor <;> simp <;> omega
        · exact ih _ _ _ h
    · rename_i hcond
      simp only [Option.some.injEq, Prod.mk.injEq] at h
      obtain ⟨hb, hs⟩ := h
      subst hs
      subst hb
      rw [decide_eq_true_eq, decide_eq_false_iff_not]
      constructor
      · constructor
        · intro h3
          constructor
          · omega
          · exact h3
        · intro h3
          exact h3.2
      · constructor
        · intro h3
          omega
        · intro h3
          omega

/-- The combat state for the C6 witness: the hero one blow away from
victory over a 10 HP bandit. -/
def c6S : Combat :=
  { player := heroC,
    enemy := { name := "Minor Bandit", max_hp := 60, current_hp := 10,
               strength := 8, agility := 0, magic := 5,
               ability_name := "Quick Strike", is_defending := false,
               temp_defense_buff := 0, weapon_boost := 0, inventory := [] } }

/-- The final state of the C6 witness run: one attack (d6 = 6, no crit,
no dodge) deals 84 damage and floors the enemy at 0 HP. -/
def c6F : Combat :=
  { player := heroC,
    enemy := { name := "Minor Bandit", max_hp := 60, current_hp := 0,
               strength := 8, agility := 0, magic := 5,
               ability_name := "Quick Strike", is_defending := false,
               temp_defense_buff := 0, weapon_boost := 0, inventory := [] } }

/-- Witness for C6: a concrete one-attack victory run of the combat
loop, terminating with result `true`, enemy HP 0 and player HP 120. -/
theorem C6_witness :
    (true = true ↔ (c6F.enemy.current_hp = 0 ∧ 0 < c6F.player.current_hp)) ∧
    (true = false ↔ c6F.player.current_hp = 0) :=
  C6_start_combat_outcome 2 c6S ⟨[6, 100, 100], []⟩ ["attack"] true c6F (by decide)
